import Mathlib

/-!
Shallow embedding of the two rule evaluators of the
turkey-crypto-aml-framework repository:

* `src/tools/risk_scorer.py`   — `TurkeyCorridorRiskScorer`
* `src/tools/threshold_calculator.py` — `MASAKThresholdCalculator`

Modelling conventions:
* Python `float` amounts are modelled as exact rationals (`ℚ`); all
  numeric literals in the source are exactly representable, and no claim
  depends on binary floating-point rounding.
* Python `int` scores are modelled as `ℕ` (every added weight is a
  non-negative constant) and days as `ℤ`.
* Python strings are Lean `String`s; `str.upper` is modelled characterwise
  and Python's lexicographic `<` on strings is modelled structurally on
  the character lists (`pyStrLt`), since the source compares the enum
  *value strings* of the two country tiers.
* Python dicts are association lists in insertion order; `dict.get` with
  a default is `List.lookup` + `Option.getD`.
* The single `raise ValueError` is modelled with `Except String`.
-/

namespace AML

/-- Python `str.upper`, modelled characterwise (inputs are ASCII codes). -/
def pyUpper (s : String) : String := ⟨s.data.map Char.toUpper⟩

/-- Lexicographic comparison of character lists, as Python compares strings. -/
def charsLt : List Char → List Char → Bool
  | [], [] => false
  | [], _ :: _ => true
  | _ :: _, [] => false
  | a :: as, b :: bs => if a < b then true else if b < a then false else charsLt as bs

/-- Python's `<` on strings (lexicographic by code point). -/
def pyStrLt (s t : String) : Bool := charsLt s.data t.data

/-- `needle` occurs at the start of `hay`. -/
def startsWithChars : List Char → List Char → Bool
  | _, [] => true
  | [], _ :: _ => false
  | a :: as, b :: bs => a == b && startsWithChars as bs

/-- `needle` occurs somewhere inside `hay` (Python's `in` on strings). -/
def containsSub : List Char → List Char → Bool
  | [], needle => needle.isEmpty
  | a :: rest, needle => startsWithChars (a :: rest) needle || containsSub rest needle

/-- Python `pat in s` for strings. -/
def strContains (s pat : String) : Bool := containsSub s.data pat.data

/-! ## risk_scorer.py -/

/-- `RiskLevel` enum (risk_scorer.py lines 16-22). -/
inductive RiskLevel
  | critical
  | high
  | medium
  | low
  | minimal
deriving Repr, DecidableEq

/-- `CountryRisk` enum (risk_scorer.py lines 25-31). -/
inductive CountryRisk
  | prohibited
  | high_risk
  | elevated
  | standard
  | low
deriving Repr, DecidableEq

/-- The `.value` string of each `CountryRisk` enum member. -/
def CountryRisk.value : CountryRisk → String
  | .prohibited => "prohibited"
  | .high_risk => "high_risk"
  | .elevated => "elevated"
  | .standard => "standard"
  | .low => "low"

/-- `RiskScore` dataclass (risk_scorer.py lines 34-43). -/
structure RiskScore where
  overall_level : RiskLevel
  score : ℕ
  country_risk : CountryRisk
  factors : List String
  recommendations : List String
  edd_required : Bool
  block_recommended : Bool
deriving Repr, DecidableEq

/-- `COUNTRY_RISK` table (risk_scorer.py lines 59-93), in source order. -/
def COUNTRY_RISK : List (String × CountryRisk) :=
  [("IR", .prohibited), ("KP", .prohibited), ("SY", .prohibited), ("CU", .prohibited),
   ("RU", .high_risk), ("BY", .high_risk), ("MM", .high_risk), ("VE", .high_risk),
   ("YE", .high_risk),
   ("AE", .elevated), ("PK", .elevated), ("NG", .elevated), ("PH", .elevated),
   ("TR", .standard),
   ("US", .low), ("GB", .low), ("DE", .low), ("FR", .low), ("JP", .low),
   ("SG", .low), ("CH", .low)]

/-- `HIGH_RISK_CRYPTO` table (risk_scorer.py lines 96-101). -/
def HIGH_RISK_CRYPTO : List (String × ℕ) :=
  [("XMR", 40), ("ZEC", 30), ("DASH", 25), ("USDT", 15)]

/-- `RISK_WEIGHTS` table (risk_scorer.py lines 104-115). -/
def RISK_WEIGHTS : List (String × ℕ) :=
  [("prohibited_country", 100), ("high_risk_country", 50), ("elevated_country", 25),
   ("large_amount", 20), ("privacy_coin", 40), ("new_relationship", 15),
   ("complex_structure", 20), ("rapid_movement", 25), ("no_economic_purpose", 30),
   ("turkey_corridor", 35)]

/-- `self.RISK_WEIGHTS[k]` (all keys used by the source are present). -/
def riskWeight (k : String) : ℕ := (RISK_WEIGHTS.lookup k).getD 0

/-- `get_country_risk` (risk_scorer.py lines 121-126):
dictionary lookup on the upper-cased code, defaulting to `standard`. -/
def get_country_risk (country_code : String) : CountryRisk :=
  (COUNTRY_RISK.lookup (pyUpper country_code)).getD CountryRisk.standard

/-- `corridor_countries` set (risk_scorer.py line 187). -/
def corridor_countries : List String := ["TR", "IR", "RU", "AE", "BY"]

/-- Points added by the country-risk `if/elif` chain
(risk_scorer.py lines 167-184): a function of the combined tier only. -/
def country_points (cr : CountryRisk) : ℕ :=
  if cr = CountryRisk.prohibited then riskWeight "prohibited_country"
  else if cr = CountryRisk.high_risk then riskWeight "high_risk_country"
  else if cr = CountryRisk.elevated then riskWeight "elevated_country"
  else 0

/-- `score_transaction` (risk_scorer.py lines 128-255).

The Python body mutates `score`, `factors`, `recommendations`,
`edd_required` and `block_recommended` through a sequence of independent
`if` blocks; each `let` below captures the total effect of that sequence
on one of the variables, with the contributions kept in source order.

Note on line 164: the source computes
`from_risk if from_risk.value < to_risk.value else to_risk`, i.e. it
compares the tier *value strings* lexicographically and keeps the
lexicographically smaller one; this is embedded verbatim via `pyStrLt`. -/
def score_transaction (from_country to_country : String) (amount_usd : ℚ)
    (crypto_type : String) (is_new_customer : Bool) (days_since_deposit : ℤ)
    (has_economic_purpose : Bool) : RiskScore :=
  let from_risk := get_country_risk from_country
  let to_risk := get_country_risk to_country
  -- line 164
  let country_risk := if pyStrLt from_risk.value to_risk.value then from_risk else to_risk
  -- lines 167-184: country tier branch
  let country_pts := country_points country_risk
  let country_factors : List String :=
    if country_risk = CountryRisk.prohibited then
      ["⛔ PROHIBITED: Transaction involves sanctioned jurisdiction (" ++
        from_country ++ "/" ++ to_country ++ ")"]
    else if country_risk = CountryRisk.high_risk then
      ["🔴 HIGH RISK: Transaction involves high-risk jurisdiction (" ++
        from_country ++ "/" ++ to_country ++ ")"]
    else if country_risk = CountryRisk.elevated then
      ["🟠 ELEVATED: Transaction involves elevated-risk jurisdiction (" ++
        from_country ++ "/" ++ to_country ++ ")"]
    else []
  let country_recs : List String :=
    if country_risk = CountryRisk.prohibited then
      ["BLOCK: Transaction involves comprehensively sanctioned jurisdiction"]
    else if country_risk = CountryRisk.high_risk then
      ["Enhanced due diligence required", "Verify source and destination of funds"]
    else if country_risk = CountryRisk.elevated then
      ["Additional monitoring recommended"]
    else []
  let block_recommended := country_risk = CountryRisk.prohibited
  let country_edd :=
    country_risk = CountryRisk.prohibited ∨ country_risk = CountryRisk.high_risk
  -- lines 186-193: Turkey corridor check
  let corridor_hit :=
    corridor_countries.contains (pyUpper from_country) &&
    corridor_countries.contains (pyUpper to_country) &&
    (["IR", "RU"].contains (pyUpper from_country) ||
     ["IR", "RU"].contains (pyUpper to_country))
  let corridor_pts := if corridor_hit then riskWeight "turkey_corridor" else 0
  let corridor_factors : List String :=
    if corridor_hit then
      ["🚨 CORRIDOR ALERT: Transaction pattern matches Turkey-Iran-Russia sanctions evasion corridor"]
    else []
  let corridor_recs : List String :=
    if corridor_hit then ["Manual review required - corridor transaction"] else []
  -- lines 195-201: crypto type risk
  let crypto_lookup := HIGH_RISK_CRYPTO.lookup (pyUpper crypto_type)
  let crypto_pts := crypto_lookup.getD 0
  let crypto_factors : List String :=
    if crypto_lookup.isSome then
      ["💰 HIGH-RISK CRYPTO: " ++ crypto_type ++ " has elevated privacy/evasion risk"]
    else []
  let crypto_recs : List String :=
    if crypto_lookup.isSome then
      if pyUpper crypto_type = "XMR" then
        ["Monero transactions cannot be traced - extra caution required"]
      else []
    else []
  -- lines 203-210: amount risk
  let amount_pts :=
    if (100000 : ℚ) ≤ amount_usd then riskWeight "large_amount"
    else if (10000 : ℚ) ≤ amount_usd then riskWeight "large_amount" / 2
    else 0
  let amount_factors : List String :=
    if (100000 : ℚ) ≤ amount_usd then
      ["💵 LARGE AMOUNT: $" ++ toString amount_usd ++ " exceeds $100,000 threshold"]
    else if (10000 : ℚ) ≤ amount_usd then
      ["💵 SIGNIFICANT AMOUNT: $" ++ toString amount_usd]
    else []
  let amount_edd := (100000 : ℚ) ≤ amount_usd
  -- lines 212-216: new customer risk
  let new_pts := if is_new_customer then riskWeight "new_relationship" else 0
  let new_factors : List String :=
    if is_new_customer then ["👤 NEW CUSTOMER: Relationship less than 30 days"] else []
  let new_recs : List String :=
    if is_new_customer then ["Verify customer identity and source of funds"] else []
  -- lines 218-222: rapid movement risk
  let rapid_pts := if days_since_deposit < 3 then riskWeight "rapid_movement" else 0
  let rapid_factors : List String :=
    if days_since_deposit < 3 then
      ["⚡ RAPID MOVEMENT: Funds withdrawn " ++ toString days_since_deposit ++
        " days after deposit"]
    else []
  let rapid_recs : List String :=
    if days_since_deposit < 3 then ["Review for potential layering activity"] else []
  -- lines 224-228: economic purpose
  let purpose_pts := if has_economic_purpose then 0 else riskWeight "no_economic_purpose"
  let purpose_factors : List String :=
    if has_economic_purpose then []
    else ["❓ NO CLEAR PURPOSE: Transaction lacks apparent economic rationale"]
  let purpose_recs : List String :=
    if has_economic_purpose then []
    else ["Request documentation of transaction purpose"]
  -- accumulated (unclamped) score, contributions in source order
  let score := country_pts + corridor_pts + crypto_pts + amount_pts +
    new_pts + rapid_pts + purpose_pts
  let factors := country_factors ++ corridor_factors ++ crypto_factors ++
    amount_factors ++ new_factors ++ rapid_factors ++ purpose_factors
  let recommendations := country_recs ++ corridor_recs ++ crypto_recs ++
    new_recs ++ rapid_recs ++ purpose_recs
  let edd_required := country_edd ∨ corridor_hit = true ∨ amount_edd
  -- lines 230-240: level bands on the unclamped score
  let overall_level :=
    if 80 ≤ score ∨ block_recommended then RiskLevel.critical
    else if 50 ≤ score then RiskLevel.high
    else if 30 ≤ score then RiskLevel.medium
    else if 15 ≤ score then RiskLevel.low
    else RiskLevel.minimal
  -- lines 242-245: generic manual-review recommendation.  Python tests
  -- `"Manual review" not in str(recommendations)`; a substring of the
  -- rendered list occurs exactly when some element contains it.
  let recommendations :=
    if overall_level = RiskLevel.critical ∨ overall_level = RiskLevel.high then
      if recommendations.any (fun s => strContains s "Manual review") then
        recommendations
      else recommendations ++ ["Manual compliance review recommended before processing"]
    else recommendations
  { overall_level := overall_level
    score := min score 100  -- line 249: min(score, 100)
    country_risk := country_risk
    factors := factors
    recommendations := recommendations
    edd_required := decide edd_required
    block_recommended := decide block_recommended }

/-! ## threshold_calculator.py -/

/-- `TransactionType` enum (threshold_calculator.py lines 17-25). -/
inductive TransactionType
  | wire_transfer
  | cash
  | crypto_deposit
  | crypto_withdrawal
  | crypto_transfer
  | fiat_deposit
  | fiat_withdrawal
deriving Repr, DecidableEq

/-- The `.value` string of each `TransactionType` member. -/
def TransactionType.value : TransactionType → String
  | .wire_transfer => "wire_transfer"
  | .cash => "cash"
  | .crypto_deposit => "crypto_deposit"
  | .crypto_withdrawal => "crypto_withdrawal"
  | .crypto_transfer => "crypto_transfer"
  | .fiat_deposit => "fiat_deposit"
  | .fiat_withdrawal => "fiat_withdrawal"

/-- `TransactionType(s)` as a partial constructor: `none` models the
`ValueError` raised on an unknown value string. -/
def TransactionType.ofValue : String → Option TransactionType
  | "wire_transfer" => some .wire_transfer
  | "cash" => some .cash
  | "crypto_deposit" => some .crypto_deposit
  | "crypto_withdrawal" => some .crypto_withdrawal
  | "crypto_transfer" => some .crypto_transfer
  | "fiat_deposit" => some .fiat_deposit
  | "fiat_withdrawal" => some .fiat_withdrawal
  | _ => none

/-- `ThresholdResult` dataclass (threshold_calculator.py lines 28-38). -/
structure ThresholdResult where
  transaction_type : TransactionType
  amount_try : ℚ
  amount_usd : ℚ
  requires_reporting : Bool
  reporting_type : String
  travel_rule_applies : Bool
  edd_required : Bool
  notes : List String
deriving Repr, DecidableEq

/-- `THRESHOLDS` dict (threshold_calculator.py lines 52-58), insertion order. -/
def THRESHOLDS : List (String × ℕ) :=
  [("wire_transfer_reporting", 75000), ("cash_reporting", 100000),
   ("travel_rule", 15000), ("edd_trigger", 500000), ("large_crypto", 75000)]

/-- `self.THRESHOLDS[k]` (all keys used by the source are present). -/
def threshold (k : String) : ℕ := (THRESHOLDS.lookup k).getD 0

/-- `USD_TRY_RATE` class constant (threshold_calculator.py line 61). -/
def USD_TRY_RATE : ℚ := 34

/-- `__init__` (threshold_calculator.py lines 63-66): the override is kept
only when truthy, i.e. supplied and nonzero. -/
def init_rate : Option ℚ → ℚ
  | some r => if r = 0 then USD_TRY_RATE else r
  | none => USD_TRY_RATE

/-- Body of `calculate` after the amount-conversion block
(threshold_calculator.py lines 93-152), on the resolved amounts. -/
def calculate_core (transaction_type : TransactionType)
    (amount_try amount_usd : ℚ) : ThresholdResult :=
  -- lines 100-125: per-group reporting thresholds
  let reporting : Bool × String × List String :=
    if transaction_type = TransactionType.wire_transfer ∨
        transaction_type = TransactionType.fiat_deposit ∨
        transaction_type = TransactionType.fiat_withdrawal then
      if (threshold "wire_transfer_reporting" : ℚ) ≤ amount_try then
        (true, "Large Transaction Report (same day)",
         ["Exceeds wire transfer threshold of " ++
           toString (threshold "wire_transfer_reporting") ++ " TRY"])
      else (false, "None", [])
    else if transaction_type = TransactionType.cash then
      if (threshold "cash_reporting" : ℚ) ≤ amount_try then
        (true, "Cash Transaction Report (same day)",
         ["Exceeds cash threshold of " ++ toString (threshold "cash_reporting") ++ " TRY"])
      else (false, "None", [])
    else if transaction_type = TransactionType.crypto_deposit ∨
        transaction_type = TransactionType.crypto_withdrawal ∨
        transaction_type = TransactionType.crypto_transfer then
      if (threshold "large_crypto" : ℚ) ≤ amount_try then
        (true, "Large Transaction Report (same day)",
         ["Exceeds crypto threshold of " ++ toString (threshold "large_crypto") ++ " TRY"])
      else (false, "None", [])
    else (false, "None", [])  -- unreachable: the three groups cover the enum
  -- lines 127-131: travel rule, independent of the type group
  let travel : Bool × List String :=
    if (threshold "travel_rule" : ℚ) ≤ amount_try then
      (true, ["Travel Rule applies (>=" ++ toString (threshold "travel_rule") ++ " TRY)",
              "Must collect/transmit originator and beneficiary information"])
    else (false, [])
  -- lines 133-137: EDD trigger
  let edd : Bool × List String :=
    if (threshold "edd_trigger" : ℚ) ≤ amount_try then
      (true, ["Enhanced Due Diligence required (>=" ++
                toString (threshold "edd_trigger") ++ " TRY)",
              "Additional source of funds verification needed"])
    else (false, [])
  -- lines 139-141: Circular No. 29 advisory
  let circular : List String :=
    if transaction_type = TransactionType.crypto_withdrawal then
      ["Per Circular No. 29: Withdrawal delays may apply for first-time or high-risk withdrawals"]
    else []
  { transaction_type := transaction_type
    amount_try := amount_try
    amount_usd := amount_usd
    requires_reporting := reporting.1
    reporting_type := reporting.2.1
    travel_rule_applies := travel.1
    edd_required := edd.1
    notes := reporting.2.2 ++ travel.2 ++ edd.2 ++ circular }

/-- `calculate` (threshold_calculator.py lines 68-152).  The amount
resolution block (lines 85-91): exactly one missing amount is derived via
the rate, both missing raises `ValueError`, both supplied are kept as-is. -/
def calculate (rate : ℚ) (transaction_type : TransactionType)
    (amount_try amount_usd : Option ℚ) : Except String ThresholdResult :=
  match amount_try, amount_usd with
  | none, some u => Except.ok (calculate_core transaction_type (u * rate) u)
  | some t, none => Except.ok (calculate_core transaction_type t (t / rate))
  | none, none => Except.error "Either amount_try or amount_usd must be provided"
  | some t, some u => Except.ok (calculate_core transaction_type t u)

/-- A transaction record for the cumulative path: the Python dicts are
read with `t.get("amount_try", 0)` and `t.get("type")`. -/
structure Tx where
  amount_try : Option ℚ
  type : Option String
deriving Repr, DecidableEq

/-- `max(set(tx_types), key=tx_types.count)` with `"crypto_transfer"` for
an empty list (threshold_calculator.py line 169).  A Python set iterates
in an unspecified order, so the tie-break among equally frequent types is
arbitrary; this embedding fixes first-occurrence order. -/
def mostCommonType (tx_types : List (Option String)) : Option String :=
  match tx_types.eraseDups with
  | [] => some "crypto_transfer"
  | x :: xs =>
    xs.foldl (fun best y => if tx_types.count best < tx_types.count y then y else best) x

/-- `TransactionType(most_common)` with the `except ValueError` fallback
(threshold_calculator.py lines 171-174). -/
def resolveTxType : Option String → TransactionType
  | some s => (TransactionType.ofValue s).getD TransactionType.crypto_transfer
  | none => TransactionType.crypto_transfer

/-- The structuring-alert note string (threshold_calculator.py lines 183-186;
number formatting abstracted). -/
def structuring_note (name : String) (avg_amount : ℚ) (value : ℕ) : String :=
  "⚠️ STRUCTURING ALERT: Average transaction (" ++ toString avg_amount ++
    " TRY) is just below " ++ name ++ " threshold (" ++ toString value ++ " TRY)"

/-- The structuring scan over `THRESHOLDS.items()`
(threshold_calculator.py lines 181-186).  Python's float literal `0.8`
is modelled as the exact rational 4/5. -/
def structuring_notes (avg_amount : ℚ) : List String :=
  THRESHOLDS.filterMap (fun p =>
    if (0.8 : ℚ) * p.2 ≤ avg_amount ∧ avg_amount < (p.2 : ℚ) then
      some (structuring_note p.1 avg_amount p.2)
    else none)

/-- `calculate_cumulative` (threshold_calculator.py lines 154-188).
`period_days` is accepted and unused, as in the source. -/
def calculate_cumulative (rate : ℚ) (transactions : List Tx)
    (period_days : ℤ := 1) : Except String ThresholdResult :=
  let total_try := (transactions.map (fun t => t.amount_try.getD 0)).sum
  let tx_types := transactions.map (fun t => t.type)
  let tx_type := resolveTxType (mostCommonType tx_types)
  (calculate rate tx_type (some total_try) none).map (fun result =>
    if 1 < transactions.length then
      let avg_amount := total_try / (transactions.length : ℚ)
      { result with notes := result.notes ++ structuring_notes avg_amount }
    else result)

/-! ## Spec-side definition for the severity ordering (claim C2)

The specification prescribes the severity ordering
prohibited > high-risk > elevated > standard > low and asks for the
higher-severity tier of the two classifications; this definition follows
the spec's words, for comparison with the source's `pyStrLt` selection. -/

/-- Severity rank per the spec's ordering. -/
def spec_severity_rank : CountryRisk → ℕ
  | .prohibited => 4
  | .high_risk => 3
  | .elevated => 2
  | .standard => 1
  | .low => 0

/-- The higher-severity tier of two classifications, per the spec. -/
def spec_higher_severity (a b : CountryRisk) : CountryRisk :=
  if spec_severity_rank a < spec_severity_rank b then b else a

/-! ## Claims -/

/-- C1.  The claim states: whenever the source or destination country
classifies as prohibited tier, the result has `block_recommended = true`
and level critical.  The code violates this: with source "IR"
(prohibited) and destination "US" (low), line 164 keeps the
lexicographically smaller tier value string ("low" < "prohibited"), the
prohibited branch never runs, and the result is not blocked and minimal
— although the code's own comment asks for the higher of the two risks. -/
theorem c1_prohibited_side_not_blocked_eval :
    get_country_risk "IR" = CountryRisk.prohibited ∧
    get_country_risk "US" = CountryRisk.low ∧
    (score_transaction "IR" "US" 500 "BTC" false 30 true).block_recommended = false ∧
    (score_transaction "IR" "US" 500 "BTC" false 30 true).overall_level = RiskLevel.minimal ∧
    (score_transaction "IR" "US" 500 "BTC" false 30 true).score = 0 := by
  refine ⟨by decide, by decide, by decide, by decide, by decide⟩

/-- C2.  The claim states: `country_risk` equals the higher-severity tier
of the two classifications (prohibited > high-risk > elevated > standard
> low).  The code instead keeps the tier whose *value string* is
lexicographically smaller: for "IR" (prohibited) and "RU" (high_risk) it
returns `high_risk`, while the spec's severity maximum is `prohibited`. -/
theorem c2_country_risk_not_severity_max_eval :
    get_country_risk "IR" = CountryRisk.prohibited ∧
    get_country_risk "RU" = CountryRisk.high_risk ∧
    spec_higher_severity (get_country_risk "IR") (get_country_risk "RU") =
      CountryRisk.prohibited ∧
    (score_transaction "IR" "RU" 500 "BTC" false 30 true).country_risk =
      CountryRisk.high_risk ∧
    (score_transaction "IR" "RU" 500 "BTC" false 30 true).country_risk ≠
      spec_higher_severity (get_country_risk "IR") (get_country_risk "RU") := by
  refine ⟨by decide, by decide, by decide, by decide, by decide⟩

/-- C3.  For every input, the `score` field of the result of
`score_transaction` is an integer in [0, 100]: the accumulated
non-negative points are clamped by `min score 100` on return. -/
theorem c3_score_in_unit_range (from_country to_country : String) (amount_usd : ℚ)
    (crypto_type : String) (is_new_customer : Bool) (days_since_deposit : ℤ)
    (has_economic_purpose : Bool) :
    (score_transaction from_country to_country amount_usd crypto_type
        is_new_customer days_since_deposit has_economic_purpose).score ≤ 100 ∧
    0 ≤ (score_transaction from_country to_country amount_usd crypto_type
        is_new_customer days_since_deposit has_economic_purpose).score := by
  refine ⟨?_, Nat.zero_le _⟩
  simp only [score_transaction]
  exact Nat.min_le_right _ _

/-- C5.  `calculate` raises its input error exactly when both
`amount_try` and `amount_usd` are absent; on every other input it
returns a complete result. -/
theorem c5_error_iff_both_amounts_missing (rate : ℚ) (t : TransactionType)
    (amount_try amount_usd : Option ℚ) :
    (∃ e, calculate rate t amount_try amount_usd = Except.error e) ↔
      (amount_try = none ∧ amount_usd = none) := by
  cases amount_try <;> cases amount_usd <;> simp [calculate]

/-- The resolved TRY amount is returned unchanged by the core. -/
theorem calculate_core_amount_try (t : TransactionType) (x y : ℚ) :
    (calculate_core t x y).amount_try = x := rfl

/-- The resolved USD amount is returned unchanged by the core. -/
theorem calculate_core_amount_usd (t : TransactionType) (x y : ℚ) :
    (calculate_core t x y).amount_usd = y := rfl

/-- C4 counterexample.  The claim asserts `amount_try = amount_usd × rate`
for every call that returns, "no matter which amount or amounts were
supplied".  When both amounts are supplied, the conversion block
(lines 85-91) leaves them untouched, so supplying the inconsistent pair
(1 TRY, 1 USD) at rate 34 returns a result violating the relation. -/
theorem c4_both_amounts_kept_inconsistent :
    ∃ r, calculate 34 TransactionType.cash (some 1) (some 1) = Except.ok r ∧
      r.amount_try = 1 ∧ r.amount_usd = 1 ∧ r.amount_try ≠ r.amount_usd * 34 := by
  refine ⟨_, rfl, rfl, rfl, ?_⟩
  rw [calculate_core_amount_try, calculate_core_amount_usd]
  norm_num

/-- C4 as amended: whenever exactly one of the two currency amounts is
supplied (and the rate is nonzero, which `init_rate` guarantees), the
returned amounts satisfy `amount_try = amount_usd × rate` exactly in the
rational model. -/
theorem c4_one_amount_consistent (rate : ℚ) (t : TransactionType) (x : ℚ)
    (r : ThresholdResult) (hrate : rate ≠ 0)
    (h : calculate rate t (some x) none = Except.ok r ∨
         calculate rate t none (some x) = Except.ok r) :
    r.amount_try = r.amount_usd * rate := by
  rcases h with h | h
  · simp only [calculate, Except.ok.injEq] at h
    subst h
    rw [calculate_core_amount_try, calculate_core_amount_usd]
    field_simp
  · simp only [calculate, Except.ok.injEq] at h
    subst h
    rw [calculate_core_amount_try, calculate_core_amount_usd]

/-- C4 witness: the amended statement at rate 34 with 68 TRY supplied. -/
theorem c4_one_amount_consistent_w :
    ∃ r, calculate 34 TransactionType.cash (some 68) none = Except.ok r ∧
      r.amount_try = r.amount_usd * 34 :=
  ⟨_, rfl, c4_one_amount_consistent 34 TransactionType.cash 68 _ (by norm_num) (Or.inl rfl)⟩

/-- The travel-rule flag of the core is exactly the 15,000 TRY test. -/
theorem calculate_core_travel_iff (t : TransactionType) (x y : ℚ) :
    (calculate_core t x y).travel_rule_applies = true ↔ (15000 : ℚ) ≤ x := by
  have ht : ((threshold "travel_rule" : ℕ) : ℚ) = 15000 := by
    rw [show threshold "travel_rule" = 15000 from rfl]
    norm_num
  by_cases hc : (15000 : ℚ) ≤ x
  · simp [calculate_core, ht, hc]
  · simp [calculate_core, ht, hc]

/-- C8.  For every transaction type and supplied amount combination that
returns, `travel_rule_applies = true` exactly when the resolved TRY
amount meets or exceeds the 15,000 TRY travel-rule threshold,
independently of the transaction-type group. -/
theorem c8_travel_rule_iff_amount (rate : ℚ) (t : TransactionType)
    (amount_try amount_usd : Option ℚ) (r : ThresholdResult)
    (h : calculate rate t amount_try amount_usd = Except.ok r) :
    r.travel_rule_applies = true ↔ (15000 : ℚ) ≤ r.amount_try := by
  cases amount_try <;> cases amount_usd <;>
    simp only [calculate, Except.ok.injEq] at h
  case none.none => exact absurd h (by simp)
  case none.some u =>
    subst h
    rw [calculate_core_amount_try]
    exact calculate_core_travel_iff t (u * rate) u
  case some.none x =>
    subst h
    rw [calculate_core_amount_try]
    exact calculate_core_travel_iff t x (x / rate)
  case some.some x u =>
    subst h
    rw [calculate_core_amount_try]
    exact calculate_core_travel_iff t x u

/-- C8 witness: a crypto transfer of 20,000 TRY at rate 34. -/
theorem c8_travel_rule_iff_amount_w :
    calculate 34 TransactionType.crypto_transfer (some 20000) none =
      Except.ok (calculate_core TransactionType.crypto_transfer 20000 (20000 / 34)) ∧
    ((calculate_core TransactionType.crypto_transfer 20000 (20000 / 34)).travel_rule_applies
        = true ↔
      (15000 : ℚ) ≤ (calculate_core TransactionType.crypto_transfer
        20000 (20000 / 34)).amount_try) :=
  ⟨rfl, c8_travel_rule_iff_amount 34 TransactionType.crypto_transfer
    (some 20000) none _ rfl⟩

/-- The reporting flag/label invariant of the core. -/
theorem calculate_core_reporting (t : TransactionType) (x y : ℚ) :
    ((calculate_core t x y).reporting_type = "None" ↔
      (calculate_core t x y).requires_reporting = false) ∧
    ((calculate_core t x y).requires_reporting = true →
      (calculate_core t x y).reporting_type = "Large Transaction Report (same day)" ∨
      (calculate_core t x y).reporting_type = "Cash Transaction Report (same day)") := by
  cases t <;> simp only [calculate_core] <;> split_ifs <;> simp_all

/-- C10.  For every result returned by `calculate`, `reporting_type` is
the string "None" exactly when `requires_reporting` is false, and when
`requires_reporting` is true the label is one of the two report labels. -/
theorem c10_reporting_type_invariant (rate : ℚ) (t : TransactionType)
    (amount_try amount_usd : Option ℚ) (r : ThresholdResult)
    (h : calculate rate t amount_try amount_usd = Except.ok r) :
    (r.reporting_type = "None" ↔ r.requires_reporting = false) ∧
    (r.requires_reporting = true →
      r.reporting_type = "Large Transaction Report (same day)" ∨
      r.reporting_type = "Cash Transaction Report (same day)") := by
  cases amount_try <;> cases amount_usd <;>
    simp only [calculate, Except.ok.injEq] at h
  case none.none => exact absurd h (by simp)
  case none.some u => subst h; exact calculate_core_reporting t (u * rate) u
  case some.none x => subst h; exact calculate_core_reporting t x (x / rate)
  case some.some x u => subst h; exact calculate_core_reporting t x u

/-- C10 witness: a cash transaction of 150,000 TRY at rate 34. -/
theorem c10_reporting_type_invariant_w :
    calculate 34 TransactionType.cash (some 150000) none =
      Except.ok (calculate_core TransactionType.cash 150000 (150000 / 34)) ∧
    ((calculate_core TransactionType.cash 150000 (150000 / 34)).reporting_type = "None" ↔
      (calculate_core TransactionType.cash 150000 (150000 / 34)).requires_reporting = false) :=
  ⟨rfl, (c10_reporting_type_invariant 34 TransactionType.cash
    (some 150000) none _ rfl).1⟩

/-- C7 counterexample.  The claim asserts a strict increase of the
returned score across the 10,000 and 100,000 boundaries for *every*
fixing of the other inputs.  With both endpoints prohibited ("IR"/"SY")
the accumulated score is already 100 and the returned score is clamped
to 100 for amounts 500, 50,000 and 200,000 alike — no strict increase. -/
theorem c7_clamped_score_does_not_increase :
    (score_transaction "IR" "SY" 500 "BTC" false 30 true).score = 100 ∧
    (score_transaction "IR" "SY" 50000 "BTC" false 30 true).score = 100 ∧
    (score_transaction "IR" "SY" 200000 "BTC" false 30 true).score = 100 := by
  refine ⟨by decide, by decide, by decide⟩

/-- C7 as amended: with all other inputs held equal, and provided the
clamp at 100 is not engaged (the returned score at the small amount is
at most 80), moving the amount from below 10,000 to [10,000, 100,000)
increases the returned score by exactly half the large-amount weight
(+10), and moving it to at-or-above 100,000 increases it by the full
weight (+20, i.e. from +10 to +20 over the middle band). -/
theorem c7_amount_boundary_deltas (from_country to_country crypto_type : String)
    (is_new : Bool) (days : ℤ) (purpose : Bool) (a1 a2 a3 : ℚ)
    (h1 : a1 < 10000) (h2 : 10000 ≤ a2) (h2' : a2 < 100000) (h3 : 100000 ≤ a3)
    (hbase : (score_transaction from_country to_country a1 crypto_type
        is_new days purpose).score ≤ 80) :
    (score_transaction from_country to_country a2 crypto_type is_new days purpose).score =
      (score_transaction from_country to_country a1 crypto_type is_new days purpose).score
        + 10 ∧
    (score_transaction from_country to_country a3 crypto_type is_new days purpose).score =
      (score_transaction from_country to_country a1 crypto_type is_new days purpose).score
        + 20 := by
  have n1 : ¬ (100000 : ℚ) ≤ a1 := not_le.2 (h1.trans (by norm_num))
  have n1' : ¬ (10000 : ℚ) ≤ a1 := not_le.2 h1
  have n2 : ¬ (100000 : ℚ) ≤ a2 := not_le.2 h2'
  have hw : riskWeight "large_amount" = 20 := rfl
  simp only [score_transaction, if_neg n1, if_neg n1', if_neg n2, if_pos h2,
    if_pos h3, hw] at hbase ⊢
  omega

/-- C7 witness: US→GB BTC transfer, amounts 500 / 50,000 / 200,000. -/
theorem c7_amount_boundary_deltas_w :
    (score_transaction "US" "GB" 500 "BTC" false 30 true).score ≤ 80 ∧
    (score_transaction "US" "GB" 50000 "BTC" false 30 true).score =
      (score_transaction "US" "GB" 500 "BTC" false 30 true).score + 10 ∧
    (score_transaction "US" "GB" 200000 "BTC" false 30 true).score =
      (score_transaction "US" "GB" 500 "BTC" false 30 true).score + 20 :=
  ⟨by decide,
   (c7_amount_boundary_deltas "US" "GB" "BTC" false 30 true 500 50000 200000
     (by norm_num) (by norm_num) (by norm_num) (by norm_num) (by decide)).1,
   (c7_amount_boundary_deltas "US" "GB" "BTC" false 30 true 500 50000 200000
     (by norm_num) (by norm_num) (by norm_num) (by norm_num) (by decide)).2⟩

/-- The lexicographic selection of line 164 never keeps a `standard`
side over the other side: "standard" is the lexicographically greatest
of the five tier value strings. -/
theorem combined_risk_with_standard (x : CountryRisk) :
    (if pyStrLt CountryRisk.standard.value x.value then CountryRisk.standard else x) = x ∧
    (if pyStrLt x.value CountryRisk.standard.value then x else CountryRisk.standard) = x := by
  cases x <;> exact ⟨by decide, by decide⟩

/-- C9.  A country code whose upper-cased form is not in the
classification table classifies as `standard`; with such a code on
either side, the combined `country_risk` equals the other side's
classification, so the country-tier points added are exactly those of
the other side and the unknown side contributes none. -/
theorem c9_unknown_code_standard_tier (code : String)
    (h : COUNTRY_RISK.lookup (pyUpper code) = none) :
    get_country_risk code = CountryRisk.standard ∧
    ∀ (other : String) (amount_usd : ℚ) (crypto_type : String)
      (is_new : Bool) (days : ℤ) (purpose : Bool),
      (score_transaction code other amount_usd crypto_type is_new days
          purpose).country_risk = get_country_risk other ∧
      (score_transaction other code amount_usd crypto_type is_new days
          purpose).country_risk = get_country_risk other ∧
      country_points ((score_transaction code other amount_usd crypto_type is_new days
          purpose).country_risk) = country_points (get_country_risk other) := by
  have hstd : get_country_risk code = CountryRisk.standard := by
    simp [get_country_risk, h]
  refine ⟨hstd, ?_⟩
  intro other amount_usd crypto_type is_new days purpose
  have h1 : (score_transaction code other amount_usd crypto_type is_new days
      purpose).country_risk = get_country_risk other := by
    simp only [score_transaction]
    rw [hstd]
    exact (combined_risk_with_standard (get_country_risk other)).1
  have h2 : (score_transaction other code amount_usd crypto_type is_new days
      purpose).country_risk = get_country_risk other := by
    simp only [score_transaction]
    rw [hstd]
    exact (combined_risk_with_standard (get_country_risk other)).2
  exact ⟨h1, h2, congrArg country_points h1⟩

/-- C9 witness: the unknown code "ZZ" against "RU". -/
theorem c9_unknown_code_standard_tier_w :
    COUNTRY_RISK.lookup (pyUpper "ZZ") = none ∧
    get_country_risk "ZZ" = CountryRisk.standard ∧
    (score_transaction "ZZ" "RU" 500 "BTC" false 30 true).country_risk =
      get_country_risk "RU" :=
  ⟨by decide, (c9_unknown_code_standard_tier "ZZ" (by decide)).1,
   ((c9_unknown_code_standard_tier "ZZ" (by decide)).2 "RU" 500 "BTC" false 30 true).1⟩

/-- C6 counterexample.  The claim asserts that two transactions whose
average is at 100% of the crypto threshold (75,000 TRY) *or above*
produce no structuring-alert note.  Two transactions of 85,000 TRY each
average 85,000 ≥ 75,000, yet the scan over all thresholds appends a
structuring alert because 85,000 falls in the cash threshold's
[80,000, 100,000) band. -/
theorem c6_alert_above_crypto_threshold :
    (threshold "large_crypto" : ℚ) ≤ 85000 ∧
    ∃ r, calculate_cumulative 34
        [⟨some 85000, some "crypto_transfer"⟩, ⟨some 85000, some "crypto_transfer"⟩] =
      Except.ok r ∧
      structuring_note "cash_reporting" 85000 100000 ∈ r.notes := by
  constructor
  · rw [show threshold "large_crypto" = 75000 from rfl]
    norm_num
  refine ⟨_, rfl, ?_⟩
  have hsum : (List.map (fun t => t.amount_try.getD 0)
      [(⟨some 85000, some "crypto_transfer"⟩ : Tx),
       ⟨some 85000, some "crypto_transfer"⟩]).sum = 170000 := by
    norm_num
  simp only [hsum, List.length_cons, List.length_nil, Nat.cast_ofNat]
  norm_num
  right
  have hsn : structuring_notes 85000 = [structuring_note "cash_reporting" 85000 100000] := by
    norm_num [structuring_notes, THRESHOLDS, List.filterMap]
  rw [hsn]
  simp

/-- C6 as amended: for every list of two transactions whose amounts sum
to 135,000 TRY (per-transaction average 67,500 = 90% of the 75,000 TRY
crypto threshold) `calculate_cumulative` appends a structuring-alert
note naming the crypto threshold; for a sum of 150,000 TRY (average
exactly 100% of that threshold) it appends no note, i.e. the cumulative
result's notes are exactly those of the single evaluation on the sum.
(For averages strictly above 100% a note can reappear when the average
enters another threshold's band — see the counterexample.) -/
theorem c6_structuring_window (t1 t2 : Tx) :
    (t1.amount_try.getD 0 + t2.amount_try.getD 0 = 135000 →
      ∃ r, calculate_cumulative 34 [t1, t2] = Except.ok r ∧
        structuring_note "large_crypto" 67500 75000 ∈ r.notes) ∧
    (t1.amount_try.getD 0 + t2.amount_try.getD 0 = 150000 →
      ∃ r₀ r, calculate 34 (resolveTxType (mostCommonType [t1.type, t2.type]))
          (some 150000) none = Except.ok r₀ ∧
        calculate_cumulative 34 [t1, t2] = Except.ok r ∧ r.notes = r₀.notes) := by
  constructor
  · intro h
    refine ⟨_, rfl, ?_⟩
    have hsum : (List.map (fun t => t.amount_try.getD 0) [t1, t2]).sum = 135000 := by
      simpa using h
    simp only [hsum, List.length_cons, List.length_nil, Nat.cast_ofNat]
    norm_num
    right
    have hsn : structuring_notes 67500 =
        [structuring_note "wire_transfer_reporting" 67500 75000,
         structuring_note "large_crypto" 67500 75000] := by
      norm_num [structuring_notes, THRESHOLDS, List.filterMap]
    rw [hsn]
    simp
  · intro h
    refine ⟨_, _, rfl, rfl, ?_⟩
    have hsum : (List.map (fun t => t.amount_try.getD 0) [t1, t2]).sum = 150000 := by
      simpa using h
    simp only [hsum, List.length_cons, List.length_nil, Nat.cast_ofNat]
    norm_num
    have hsn : structuring_notes 75000 = [] := by
      norm_num [structuring_notes, THRESHOLDS, List.filterMap]
    rw [hsn]

/-- C6 witness: two 67,500 TRY transfers (90% band, alert present) and
two 75,000 TRY transfers (exactly 100%, no alert). -/
theorem c6_structuring_window_w :
    (∃ r, calculate_cumulative 34
        [⟨some 67500, some "crypto_transfer"⟩, ⟨some 67500, some "crypto_transfer"⟩] =
      Except.ok r ∧ structuring_note "large_crypto" 67500 75000 ∈ r.notes) ∧
    (∃ r₀ r, calculate 34
        (resolveTxType (mostCommonType [some "crypto_transfer", some "crypto_transfer"]))
        (some 150000) none = Except.ok r₀ ∧
      calculate_cumulative 34
          [⟨some 75000, some "crypto_transfer"⟩, ⟨some 75000, some "crypto_transfer"⟩] =
        Except.ok r ∧ r.notes = r₀.notes) :=
  ⟨(c6_structuring_window ⟨some 67500, some "crypto_transfer"⟩
      ⟨some 67500, some "crypto_transfer"⟩).1 (by norm_num),
   (c6_structuring_window ⟨some 75000, some "crypto_transfer"⟩
      ⟨some 75000, some "crypto_transfer"⟩).2 (by norm_num)⟩

end AML
